import Mathlib

/-!
Shallow embedding of the PIDWS alarm-log ingestion and analytics pipeline
(`src/app.py`).  Raw tabular cells are modelled as `Option String` (pandas
`NaN` is `none`), timestamps as rational epoch seconds, and the pandas
operations used by the source (`notna` filtering, `to_datetime` with
`errors='coerce'`, boolean column arithmetic, `groupby`/`merge`/`sort_values`)
as explicit list functions.
-/

namespace PIDWS

/-! #### Structural string primitives

Python string operations are modelled by structural recursion over the
character list of a `String`, mirroring Python's code-point semantics. -/

/-- Strict lexicographic order on code points (Python string `<`). -/
def lexLtB : List Char → List Char → Bool
  | _, [] => false
  | [], _ :: _ => true
  | a :: as, b :: bs => if a = b then lexLtB as bs else decide (a < b)

/-- Python string `<` (code-point lexicographic). -/
def strLtB (a b : String) : Bool := lexLtB a.data b.data

/-- Python string `≤`. -/
def strLeB (a b : String) : Bool := a == b || strLtB a b

/-- Split a character list at every separator character (Python
`str.split(sep)` with a one-character separator). -/
def splitChars (p : Char → Bool) : List Char → List (List Char)
  | [] => [[]]
  | c :: cs =>
    match splitChars p cs with
    | t :: ts => if p c then [] :: t :: ts else (c :: t) :: ts
    | [] => if p c then [[], []] else [[c]]

/-- `str.split(sep)` for a one-character separator class. -/
def strSplitP (s : String) (p : Char → Bool) : List String :=
  (splitChars p s.data).map (fun l => ⟨l⟩)

/-- `str.strip()`: drop whitespace from both ends. -/
def trimChars (l : List Char) : List Char :=
  ((l.dropWhile Char.isWhitespace).reverse.dropWhile Char.isWhitespace).reverse

/-- `str.strip()` on a `String`. -/
def strTrim (s : String) : String := ⟨trimChars s.data⟩

/-- Decimal-digit parsing: `some n` iff the string is nonempty and all
digits. -/
def strToNatD (s : String) : Option ℕ :=
  if s.data ≠ [] ∧ s.data.all Char.isDigit then
    some (s.data.foldl (fun acc c => acc * 10 + (c.toNat - 48)) 0)
  else none

/-- Python `str.startswith`. -/
def strStartsWith (s t : String) : Bool := t.data.isPrefixOf s.data

/-- Python `str.endswith`. -/
def strEndsWith (s t : String) : Bool := t.data.isSuffixOf s.data

/-- Drop the first `n` characters. -/
def strDropn (s : String) (n : ℕ) : String := ⟨s.data.drop n⟩

/-- Python `str.lower()`. -/
def strToLower (s : String) : String := ⟨s.data.map Char.toLower⟩

/-- Python `str.upper()`. -/
def strToUpper (s : String) : String := ⟨s.data.map Char.toUpper⟩

/-- Emptiness test. -/
def strIsEmpty (s : String) : Bool := s.data.isEmpty

/-- Join character lists with single spaces. -/
def joinSpaceChars : List (List Char) → List Char
  | [] => []
  | [x] => x
  | x :: y :: ys => x ++ ' ' :: joinSpaceChars (y :: ys)

/-- Join strings with single spaces (the string rendering of a row). -/
def joinSpace (l : List String) : String := ⟨joinSpaceChars (l.map (fun s => s.data))⟩

/-- Python's `in` operator on strings: `pat` occurs as a contiguous substring
of `s`. -/
def strContains (s pat : String) : Bool :=
  (List.range (s.data.length + 1)).any (fun i => pat.data.isPrefixOf (s.data.drop i))

/-- Pandas `astype(str)` on one cell: a missing value (`NaN`) renders as the
literal string "nan"; a present string renders as itself. -/
def astype_str : Option String → String
  | none => "nan"
  | some s => s

/-- Column-name canonicalization from `process_alarm_df`:
`str(c).strip().replace('\n', ' ')`. -/
def canonName (c : String) : String :=
  ⟨(trimChars c.data).map (fun ch => if ch = '\n' then ' ' else ch)⟩

/-- Python `int(str)`: optional surrounding whitespace, optional sign, then
decimal digits; anything else raises (modelled as `none`). -/
def pyInt (s : String) : Option ℤ :=
  let t := strTrim s
  if strStartsWith t "-" then (strToNatD (strDropn t 1)).map (fun n => -(n : ℤ))
  else if strStartsWith t "+" then (strToNatD (strDropn t 1)).map (fun n => (n : ℤ))
  else (strToNatD t).map (fun n => (n : ℤ))

/-- The inner `parse_duration` of `process_alarm_df`: split on ':', require
exactly three integer tokens `h, m, s`, return `h*60 + m + s/60` minutes;
on any failure (wrong token count, non-numeric token) return 0. -/
def parse_duration (s : String) : ℚ :=
  match strSplitP s (fun c => c = ':') with
  | [hs, ms, ss] =>
    match pyInt hs, pyInt ms, pyInt ss with
    | some h, some m, some sec => (h : ℚ) * 60 + (m : ℚ) + (sec : ℚ) / 60
    | _, _, _ => 0
  | _ => 0

/-- Gregorian leap-year test. -/
def isLeap (y : ℕ) : Bool :=
  y % 4 = 0 && (y % 100 ≠ 0 || y % 400 = 0)

/-- Days in a Gregorian month. -/
def daysInMonth (y m : ℕ) : ℕ :=
  if m = 2 then (if isLeap y then 29 else 28)
  else if m = 4 ∨ m = 6 ∨ m = 9 ∨ m = 11 then 30
  else 31

/-- Days from 1970-01-01 to year `y`, month `m`, day `d` (civil calendar,
`y ≥ 1`). -/
def daysFromCivil (y m d : ℕ) : ℤ :=
  let y2 : ℕ := if m ≤ 2 then y - 1 else y
  let era : ℕ := y2 / 400
  let yoe : ℕ := y2 % 400
  let mp : ℕ := if 2 < m then m - 3 else m + 9
  let doy : ℕ := (153 * mp + 2) / 5 + d - 1
  let doe : ℕ := yoe * 365 + yoe / 4 - yoe / 100 + doy
  (era * 146097 + doe : ℤ) - 719468

/-- Parse a day-first date `D-M-Y` or `D/M/Y` to days since the epoch. -/
def parseDate (s : String) : Option ℤ :=
  match strSplitP s (fun c => c = '/' || c = '-') with
  | [ds, ms, ys] => do
    let d ← strToNatD ds
    let m ← strToNatD ms
    let y ← strToNatD ys
    if 1 ≤ y ∧ 1 ≤ m ∧ m ≤ 12 ∧ 1 ≤ d ∧ d ≤ daysInMonth y m then
      some (daysFromCivil y m d)
    else none
  | _ => none

/-- Parse a clock time `H:M` or `H:M:S` to seconds past midnight. -/
def parseClock (s : String) : Option ℕ :=
  match strSplitP s (fun c => c = ':') with
  | [hs, ms] => do
    let h ← strToNatD hs
    let m ← strToNatD ms
    if h < 24 ∧ m < 60 then some (h * 3600 + m * 60) else none
  | [hs, ms, ss] => do
    let h ← strToNatD hs
    let m ← strToNatD ms
    let sec ← strToNatD ss
    if h < 24 ∧ m < 60 ∧ sec < 60 then some (h * 3600 + m * 60 + sec) else none
  | _ => none

/-- `pd.to_datetime(·, dayfirst=True, errors='coerce')` on one rendered cell,
modelled on the day-first `D-M-Y [H:M[:S]]` family the documents use.  The
result is epoch seconds; an unparseable value coerces to `none` (NaT). -/
def parseTimestamp (s : String) : Option ℚ :=
  match (strSplitP (strTrim s) (fun c => c = ' ')).filter (fun t => ¬ strIsEmpty t) with
  | [datePart] => (parseDate datePart).map (fun days => (days : ℚ) * 86400)
  | [datePart, timePart] => do
    let days ← parseDate datePart
    let secs ← parseClock timePart
    some ((days : ℚ) * 86400 + (secs : ℚ))
  | _ => none

/-- `to_datetime` applied to a cell: missing stays missing (NaT), a present
string is parsed with coercion. -/
def toDatetimeCell (c : Option String) : Option ℚ :=
  c.bind parseTimestamp

/-- `pandas.Series.dt.hour` of an epoch-second timestamp. -/
def hourOf (t : ℚ) : ℤ :=
  (Int.floor (t / 3600)) % 24

/-- The unsigned decimal mantissa of a Python float literal: digits with an
optional fractional part (at least one digit overall). -/
def pyFloatMantissa (u : String) : Option ℚ :=
  match strSplitP u (fun c => c = '.') with
  | [ip] => (strToNatD ip).map (fun n => (n : ℚ))
  | [ip, fp] =>
    if strIsEmpty ip = true ∧ strIsEmpty fp = true then none
    else if (strIsEmpty ip = true ∨ ip.data.all Char.isDigit = true)
        ∧ (strIsEmpty fp = true ∨ fp.data.all Char.isDigit = true) then
      some (((strToNatD ip).getD 0 : ℚ) + ((strToNatD fp).getD 0 : ℚ) / (10 ^ fp.data.length))
    else none
  | _ => none

/-- A float exponent: optional sign then digits (no surrounding space). -/
def pyExpInt (s : String) : Option ℤ :=
  if strStartsWith s "-" then (strToNatD (strDropn s 1)).map (fun n => -(n : ℤ))
  else if strStartsWith s "+" then (strToNatD (strDropn s 1)).map (fun n => (n : ℤ))
  else (strToNatD s).map (fun n => (n : ℤ))

/-- Python `float(str)` as used by `pd.to_numeric(·, errors='coerce')`:
optional sign, decimal mantissa, optional `e`/`E` scientific exponent, read
as an exact rational.  IEEE rounding and the `inf` literal are outside the
rational model (an unparseable value coerces to `none`, which also renders
`NaN`). -/
def pyFloat (s : String) : Option ℚ :=
  let t := strTrim s
  let core : String → Option ℚ := fun u =>
    match strSplitP u (fun c => c = 'e' || c = 'E') with
    | [mant] => pyFloatMantissa mant
    | [mant, ex] => do
      let m ← pyFloatMantissa mant
      let e ← pyExpInt ex
      some (m * (10 : ℚ) ^ e)
    | _ => none
  if strStartsWith t "-" then (core (strDropn t 1)).map (fun q => -q)
  else if strStartsWith t "+" then core (strDropn t 1)
  else core t

/-- `pd.to_numeric(·, errors='coerce')` on a cell. -/
def toNumericCell (c : Option String) : Option ℚ :=
  c.bind pyFloat

/-- A raw pandas DataFrame as read from a document: column labels plus rows of
cells aligned with the labels. -/
structure RawTable where
  cols : List String
  rows : List (List (Option String))
deriving Repr, DecidableEq

/-- `row[c]`: the cell of `row` under column label `c` (the first column with
that label), `none` when the column is absent or the cell is missing. -/
def cellAt (cols : List String) (row : List (Option String)) (c : String) : Option String :=
  match cols.findIdx? (fun x => x = c) with
  | some i => (row.get? i).getD none
  | none => none

/-- One canonical event record, mirroring the derived columns that
`process_alarm_df` adds to the frame plus the passthrough columns the
aggregations later read (`Section`, `LPG . No.`). -/
structure Event where
  alert_time : Option ℚ
  verification_time : Option ℚ
  response_minutes : Option ℚ
  is_sop_violation : Bool
  severity_clean : String
  is_high : Bool
  is_critical_gap : Bool
  duration_mins : ℚ
  section_name : Option String
  lpg_no : Option String
deriving Repr, DecidableEq

/-- The per-row field coercion of `process_alarm_df` (lines 138-157 of
`src/app.py`): day-first timestamp coercion, response minutes, SOP flag,
severity normalization, high/critical-gap classification and duration. -/
def mkEvent (cols : List String) (row : List (Option String)) : Event :=
  let alert := toDatetimeCell (cellAt cols row "Alert Time")
  let verif := toDatetimeCell (cellAt cols row "Verification Date/Time")
  let response : Option ℚ :=
    match verif, alert with
    | some v, some a => some ((v - a) / 60)
    | _, _ => none
  let sop : Bool :=
    match response with
    | some m => decide (30 < m)
    | none => false
  let sev := strToLower (astype_str (cellAt cols row "Alert Type/Severity"))
  let hi := strContains sev "high"
  { alert_time := alert
    verification_time := verif
    response_minutes := response
    is_sop_violation := sop
    severity_clean := sev
    is_high := hi
    is_critical_gap := hi && verif.isNone
    duration_mins :=
      if cols.contains "Alert Duration(HH:MM:SS)" then
        parse_duration (astype_str (cellAt cols row "Alert Duration(HH:MM:SS)"))
      else 0
    section_name := cellAt cols row "Section"
    lpg_no := cellAt cols row "LPG . No." }

/-- The required column set checked by `process_alarm_df`. -/
def requiredCols : List String :=
  ["Alert Time", "Verification Date/Time", "Alert Type/Severity"]

/-- The schema gate and row pipeline of `process_alarm_df` (lines 132-159):
canonicalize column names, reject when a required column is missing, drop rows
whose raw `Alert Time` cell is missing (`notna`), then coerce each surviving
row. -/
def processTable (t : RawTable) : Option (List Event) :=
  let cols := t.cols.map canonName
  if requiredCols.all (fun c => cols.contains c) then
    some (((t.rows.filter (fun r => (cellAt cols r "Alert Time").isSome)).map (mkEvent cols)))
  else none

/-- What the byte content of an uploaded document parses as: a spreadsheet
container (named sheets of rows), a delimited text file (rows), or bytes that
no reader can decode. -/
inductive FileContent where
  | excel (sheets : List (String × List (List (Option String))))
  | csvRows (rows : List (List (Option String)))
  | corrupt (msg : String)
deriving Repr, DecidableEq

/-- `filename.lower().endswith(('.xls', '.xlsx'))`. -/
def isExcelName (fn : String) : Bool :=
  strEndsWith (strToLower fn) ".xls" || strEndsWith (strToLower fn) ".xlsx"

/-- The constant header offset passed by `process_alarm_df` to both
`pd.read_excel` and `pd.read_csv` (`header=3`). -/
def fixedHeaderRow : ℕ := 3

/-- A missing header cell becomes pandas' `Unnamed: k` label. -/
def headerCellName (i : ℕ) (c : Option String) : String :=
  match c with
  | some s => s
  | none => "Unnamed: " ++ toString i

/-- Read a frame from raw rows with the header at `fixedHeaderRow`: the header
row supplies the column labels, later rows the data; too few rows is a reader
error (caught upstream). -/
def readAtHeader (rows : List (List (Option String))) : Except String RawTable :=
  match rows.get? fixedHeaderRow with
  | some hr => .ok { cols := hr.mapIdx headerCellName, rows := rows.drop (fixedHeaderRow + 1) }
  | none => .error "header row beyond end of data"

/-- Sheet selection of `process_alarm_df` (lines 123-127): the first sheet
whose name contains "ALARM" case-insensitively, else the first sheet. -/
def targetSheet (sheets : List (String × List (List (Option String)))) :
    Option (String × List (List (Option String))) :=
  match sheets with
  | [] => none
  | s0 :: _ => some ((sheets.find? (fun s => strContains (strToUpper s.1) "ALARM")).getD s0)

/-- The reading stage of `process_alarm_df` (lines 120-130): dispatch on the
filename extension, select the sheet for spreadsheets, and read with the fixed
header offset.  `pd.read_csv` skips blank source lines before header
positioning (`skip_blank_lines` default; a blank line is modelled as a row
with no cells), whereas `pd.read_excel` indexes sheet rows directly.  Any
reader fault is an error (caught by the surrounding `try`). -/
def readDocument (fn : String) (c : FileContent) : Except String RawTable :=
  if isExcelName fn then
    match c with
    | .excel sheets =>
      match targetSheet sheets with
      | some s => readAtHeader s.2
      | none => .error "spreadsheet has no sheets"
    | _ => .error "not a spreadsheet container"
  else
    match c with
    | .csvRows rows => readAtHeader (rows.filter (fun r => ¬ r.isEmpty))
    | _ => .error "undecodable bytes"

/-- `process_alarm_df` (lines 118-162): the whole per-document ingest
operation; any reader error and any schema rejection map to `none` (the
Python `return None` / caught exception). -/
def process_alarm_df (fn : String) (c : FileContent) : Option (List Event) :=
  match readDocument fn c with
  | .ok t => processTable t
  | .error _ => none

/-- The 0-based header row index the code actually reads at, when reading
succeeds: always `fixedHeaderRow`. -/
def headerIndexUsed (fn : String) (c : FileContent) : Option ℕ :=
  match readDocument fn c with
  | .ok _ => some fixedHeaderRow
  | .error _ => none

/-- The spec's Header Locator contract, stated for comparison with the code:
scan the first 10 rows top-down and return the 0-based index of the first row
whose string-rendered content contains, case-insensitively, both an alert-time
marker and a severity marker; `none` if no row in the window matches. -/
def specHeaderScan (rows : List (List (Option String))) : Option ℕ :=
  (List.range 10).find? (fun i =>
    match rows.get? i with
    | some r =>
      let s := strToLower (joinSpace (r.map astype_str))
      strContains s "alert time" && strContains s "severity"
    | none => false)

/-! ### Aggregation engine -/

/-- Stable insertion of `x` into `l`: `x` is placed before the first element
`y` with `le x y`; used to model sorting with pandas' stable key order. -/
def insertLe (le : α → α → Bool) (x : α) : List α → List α
  | [] => [x]
  | y :: ys => if le x y then x :: y :: ys else y :: insertLe le x ys

/-- Stable insertion sort by the boolean relation `le`. -/
def isortLe (le : α → α → Bool) : List α → List α
  | [] => []
  | x :: xs => insertLe le x (isortLe le xs)

/-- `pandas.Series.mean()` with the default `skipna`: the mean of the present
values, `NaN` (modelled `none`) when no value is present. -/
def seriesMean (xs : List (Option ℚ)) : Option ℚ :=
  let vs := xs.filterMap id
  if vs.length = 0 then none else some (vs.sum / (vs.length : ℚ))

/-- The upload-preview KPI (lines 207-210 of `src/app.py`): the corpus mean of
`Response_Time_Mins`, with `NaN` replaced by `0` before display. -/
def avg_response (es : List Event) : ℚ :=
  match seriesMean (es.map (fun e => e.response_minutes)) with
  | none => 0
  | some v => v

/-- A historic-corpus event: the canonical event plus the provenance columns
`get_historic_data` adds (`Source_File`, `Log_Date` as a day number). -/
structure TaggedEvent where
  ev : Event
  source_file : String
  log_date : ℤ
deriving Repr, DecidableEq

/-- One row of the daily rollup. -/
structure DailyRow where
  log_date : ℤ
  total_alarms : ℕ
  avg_resp : Option ℚ
  critical_gaps : ℕ
  sop_breaches : ℕ
deriving Repr, DecidableEq

/-- The daily rollup (lines 245-250): `groupby('Log_Date')` (keys sorted
ascending) aggregating count of non-null `Alert Time`, mean response, and the
two boolean sums. -/
def daily_stats (tes : List TaggedEvent) : List DailyRow :=
  let keys := isortLe (fun a b => decide (a ≤ b)) ((tes.map (fun te => te.log_date)).dedup)
  keys.map (fun d =>
    let g := tes.filter (fun te => decide (te.log_date = d))
    { log_date := d
      total_alarms := g.countP (fun te => te.ev.alert_time.isSome)
      avg_resp := seriesMean (g.map (fun te => te.ev.response_minutes))
      critical_gaps := g.countP (fun te => te.ev.is_critical_gap)
      sop_breaches := g.countP (fun te => te.ev.is_sop_violation) })

/-- The hour-of-day keys of the high-severity events (`dt.hour` of
`Alert Time`; a NaT alert time contributes no key, as in `groupby`). -/
def highHours (es : List Event) : List ℤ :=
  (es.filter (fun e => e.is_high)).filterMap (fun e => e.alert_time.map hourOf)

/-- The hourly rollup (lines 360-363): group the high-severity events by hour,
then left-merge onto the full `range(24)` hour axis with `fillna(0)`, so every
hour 0-23 appears with the size of its group (0 when the group is absent). -/
def hourly (es : List Event) : List (ℤ × ℕ) :=
  (List.range 24).map
    (fun (h : ℕ) => ((h : ℤ), (highHours es).countP (fun x => decide (x = (h : ℤ)))))

/-- One row of the stretch rollup (`stats` at lines 331-335). -/
structure StretchStat where
  label : String
  high_alarms : ℕ
  unverified : ℕ
  risk_score : ℕ
deriving Repr, DecidableEq

/-- `np.floor` then `astype(int)` on a numeric kilometer post. -/
def kmStart (q : ℚ) : ℤ := Int.floor q

/-- `"KM " + str(KM_Start)`. -/
def stretchLabel (k : ℤ) : String := "KM " ++ toString k

/-- The section-filtered, numeric-`LPG . No.` rows, each paired with its
stretch label (lines 324-329). -/
def kmRows (df : List Event) (sel : String) : List (Event × String) :=
  (df.filter (fun e => decide (e.section_name = some sel))).filterMap (fun e =>
    (toNumericCell e.lpg_no).map (fun q => (e, stretchLabel (kmStart q))))

/-- The distinct stretch labels, sorted ascending (pandas `groupby` key
order). -/
def stretchKeys (df : List Event) (sel : String) : List String :=
  isortLe strLeB (((kmRows df sel).map (fun p => p.2)).dedup)

/-- One `groupby('Stretch_Label')` aggregate row (lines 331-335): the sums of
the `Is_High` and `Is_Critical_Gap` booleans over the label's group, and the
derived risk score (line 335). -/
def mkStretchStat (df : List Event) (sel : String) (k : String) : StretchStat :=
  let g := ((kmRows df sel).filter (fun p => decide (p.2 = k))).map (fun p => p.1)
  let hi := g.countP (fun e => e.is_high)
  let un := g.countP (fun e => e.is_critical_gap)
  { label := k, high_alarms := hi, unverified := un, risk_score := hi + un }

/-- The grouped per-stretch statistics (lines 331-335). -/
def stretchStats (df : List Event) (sel : String) : List StretchStat :=
  (stretchKeys df sel).map (mkStretchStat df sel)

/-- `top_risky` (line 336): sort the stretch statistics by risk score
descending and keep the first 5.  The source calls
`sort_values(by='Risk_Score', ascending=False)` with the default
`kind='quicksort'`, which pandas documents as not stable: the relative order
of equal-score buckets is an unspecified implementation detail.  The
insertion sort used here is one arbitrary deterministic refinement of that
behaviour; no theorem below relies on the order it gives tied buckets. -/
def top_risky (df : List Event) (sel : String) : List StretchStat :=
  (isortLe (fun a b => decide (b.risk_score ≤ a.risk_score)) (stretchStats df sel)).take 5

/-- The events of one 1-km bucket of one section: section-filtered rows whose
`LPG . No.` is numeric and whose stretch label is `lab`. -/
def bucketEvents (df : List Event) (sel lab : String) : List Event :=
  (df.filter (fun e => decide (e.section_name = some sel))).filter (fun e =>
    match toNumericCell e.lpg_no with
    | some q => decide (stretchLabel (kmStart q) = lab)
    | none => false)

/-! ### Concrete example documents and events -/

/-- A delimited document with a three-line metadata preamble (no blank lines)
whose data row carries a present but unparseable alert-time value. -/
def nullAlertRows : List (List (Option String)) :=
  [[some "PIDWS EXPORT"], [some "Station: Muzaffarpur"], [some "Period: 02-2026"],
   [some "Alert Time", some "Verification Date/Time", some "Alert Type/Severity"],
   [some "not a timestamp", some "05-02-2026 10:45", some "High"]]

/-- A delimited document with a non-blank preamble whose header predicate
already matches at row 0. -/
def scanRows : List (List (Option String)) :=
  [[some "Alert Time", some "Alert Type/Severity"],
   [some "meta 1"], [some "meta 2"], [some "meta 3"],
   [some "data"]]

/-- A one-row schema-valid table with raw labels needing canonicalization. -/
def wTable : RawTable :=
  { cols := [" Alert Time", "Verification\nDate/Time", "Alert Type/Severity"]
    rows := [[some "05-02-2026 10:00", none, some "High"]] }

/-- The event coerced from the single row of `wTable`. -/
def wEvent : Event :=
  mkEvent (wTable.cols.map canonName) [some "05-02-2026 10:00", none, some "High"]

/-- A row with both timestamps present and high severity. -/
def respRow : List (Option String) :=
  [some "01-01-1970 10:00", some "01-01-1970 10:45", some "High"]

/-- A row whose severity cell is missing. -/
def noSevRow : List (Option String) :=
  [some "05-02-2026 10:00", none, none]

/-- A delimited document (non-blank preamble) missing the verification-time
column. -/
def noVerifRows : List (List (Option String)) :=
  [[some "PIDWS EXPORT"], [some "Station: Muzaffarpur"], [some "Period: 02-2026"],
   [some "Alert Time", some "Alert Type/Severity"],
   [some "05-02-2026 10:00", some "High"]]

/-- An event with no defined response time. -/
def noRespEvent : Event :=
  { alert_time := some 0, verification_time := none, response_minutes := none
    is_sop_violation := false, severity_clean := "high", is_high := true
    is_critical_gap := true, duration_mins := 0, section_name := some "S1"
    lpg_no := some "2.3" }

/-! ### Generic lemmas about the list combinators used above -/

theorem perm_insertLe (le : α → α → Bool) (x : α) :
    ∀ l : List α, List.Perm (insertLe le x l) (x :: l) := by
  intro l
  induction l with
  | nil => simp [insertLe]
  | cons y ys ih =>
    by_cases h : le x y = true
    · simp [insertLe, h]
    · simp only [insertLe, h, if_neg]
      exact ((ih.cons y).trans (List.Perm.swap x y ys))

theorem perm_isortLe (le : α → α → Bool) :
    ∀ l : List α, List.Perm (isortLe le l) l := by
  intro l
  induction l with
  | nil => simp [isortLe]
  | cons x xs ih => exact (perm_insertLe le x (isortLe le xs)).trans (ih.cons x)

theorem mem_isortLe (le : α → α → Bool) (l : List α) (a : α) :
    a ∈ isortLe le l ↔ a ∈ l :=
  (perm_isortLe le l).mem_iff

theorem pairwise_insertLe (le : α → α → Bool)
    (htot : ∀ a b, le a b = false → le b a = true)
    (htrans : ∀ a b c, le a b = true → le b c = true → le a c = true)
    (x : α) : ∀ s : List α, s.Pairwise (fun a b => le a b = true) →
      (insertLe le x s).Pairwise (fun a b => le a b = true) := by
  intro s
  induction s with
  | nil => simp [insertLe]
  | cons y ys ih =>
    intro hp
    rw [List.pairwise_cons] at hp
    by_cases h : le x y = true
    · simp only [insertLe, h, if_pos]
      refine List.Pairwise.cons ?_ (List.Pairwise.cons hp.1 hp.2)
      intro z hz
      rcases List.mem_cons.mp hz with rfl | hz
      · exact h
      · exact htrans x y z h (hp.1 z hz)
    · simp only [insertLe, h, if_neg]
      refine List.Pairwise.cons ?_ (ih hp.2)
      intro z hz
      rcases List.mem_cons.mp (((perm_insertLe le x ys).mem_iff).mp hz) with hzx | hz
      · rw [hzx]; exact htot x y (Bool.eq_false_iff.mpr h)
      · exact hp.1 z hz

theorem pairwise_isortLe (le : α → α → Bool)
    (htot : ∀ a b, le a b = false → le b a = true)
    (htrans : ∀ a b c, le a b = true → le b c = true → le a c = true) :
    ∀ l : List α, (isortLe le l).Pairwise (fun a b => le a b = true) := by
  intro l
  induction l with
  | nil => simp [isortLe]
  | cons x xs ih => exact pairwise_insertLe le htot htrans x (isortLe le xs) ih

theorem lexLtB_nil_right : ∀ l : List Char, lexLtB l [] = false := by
  intro l
  cases l <;> rfl

theorem lexLtB_trans :
    ∀ l₁ l₂ l₃ : List Char,
      lexLtB l₁ l₂ = true → lexLtB l₂ l₃ = true → lexLtB l₁ l₃ = true := by
  intro l₁
  induction l₁ with
  | nil =>
    intro l₂ l₃ h12 h23
    cases l₃ with
    | nil => rw [lexLtB_nil_right] at h23; exact absurd h23 (by simp)
    | cons c cs => rfl
  | cons a as ih =>
    intro l₂ l₃ h12 h23
    cases l₂ with
    | nil => rw [lexLtB_nil_right] at h12; exact absurd h12 (by simp)
    | cons b bs =>
      cases l₃ with
      | nil => rw [lexLtB_nil_right] at h23; exact absurd h23 (by simp)
      | cons c cs =>
        simp only [lexLtB] at h12 h23 ⊢
        by_cases hab : a = b
        · rw [if_pos hab] at h12
          by_cases hbc : b = c
          · rw [if_pos hbc] at h23
            rw [if_pos (hab.trans hbc)]
            exact ih bs cs h12 h23
          · have hac : ¬ a = c := by rw [hab]; exact hbc
            rw [if_neg hbc] at h23
            rw [if_neg hac, hab]
            exact h23
        · rw [if_neg hab] at h12
          by_cases hbc : b = c
          · have hac : ¬ a = c := by rw [← hbc]; exact hab
            rw [if_neg hac, ← hbc]
            exact h12
          · rw [if_neg hbc] at h23
            have hlt : a < c := lt_trans (of_decide_eq_true h12) (of_decide_eq_true h23)
            rw [if_neg (ne_of_lt hlt)]
            exact decide_eq_true hlt

theorem lexLtB_trichotomy :
    ∀ l₁ l₂ : List Char, l₁ = l₂ ∨ lexLtB l₁ l₂ = true ∨ lexLtB l₂ l₁ = true := by
  intro l₁
  induction l₁ with
  | nil =>
    intro l₂
    cases l₂ with
    | nil => exact Or.inl rfl
    | cons b bs => exact Or.inr (Or.inl rfl)
  | cons a as ih =>
    intro l₂
    cases l₂ with
    | nil => exact Or.inr (Or.inr rfl)
    | cons b bs =>
      by_cases hab : a = b
      · rcases ih bs with heq | hlt | hgt
        · exact Or.inl (by rw [hab, heq])
        · refine Or.inr (Or.inl ?_)
          simp only [lexLtB]
          rw [if_pos hab]
          exact hlt
        · refine Or.inr (Or.inr ?_)
          simp only [lexLtB]
          rw [if_pos hab.symm]
          exact hgt
      · rcases lt_trichotomy a b with hlt | heq | hgt
        · refine Or.inr (Or.inl ?_)
          simp only [lexLtB]
          rw [if_neg hab]
          exact decide_eq_true hlt
        · exact absurd heq hab
        · refine Or.inr (Or.inr ?_)
          simp only [lexLtB]
          rw [if_neg (fun h => hab h.symm)]
          exact decide_eq_true hgt

theorem strLtB_trans (a b c : String) :
    strLtB a b = true → strLtB b c = true → strLtB a c = true :=
  lexLtB_trans a.data b.data c.data

theorem strLeB_total (a b : String) : strLeB a b = false → strLeB b a = true := by
  intro h
  rcases a with ⟨da⟩
  rcases b with ⟨db⟩
  simp only [strLeB, strLtB, Bool.or_eq_false_iff] at h
  obtain ⟨hbeq, hlt⟩ := h
  have hne : ¬ String.mk da = String.mk db := by
    intro hc
    rw [hc] at hbeq
    simp at hbeq
  rcases lexLtB_trichotomy da db with heq | h2 | h3
  · exact absurd (congrArg String.mk heq) hne
  · rw [h2] at hlt
    exact absurd hlt (by simp)
  · simp only [strLeB, strLtB]
    rw [h3]
    simp

theorem strLeB_trans (a b c : String) :
    strLeB a b = true → strLeB b c = true → strLeB a c = true := by
  intro h1 h2
  simp only [strLeB, Bool.or_eq_true] at h1 h2 ⊢
  rcases h1 with h1 | h1
  · rw [eq_of_beq h1]
    rcases h2 with h2 | h2
    · exact Or.inl h2
    · exact Or.inr h2
  · rcases h2 with h2 | h2
    · rw [← eq_of_beq h2]
      exact Or.inr h1
    · exact Or.inr (strLtB_trans a b c h1 h2)

theorem strLtB_of_leB_of_ne (a b : String) :
    strLeB a b = true → ¬ a = b → strLtB a b = true := by
  intro h hne
  simp only [strLeB, Bool.or_eq_true] at h
  rcases h with h | h
  · exact absurd (eq_of_beq h) hne
  · exact h

theorem countP_filterMap_match (f : α → Option β) (p : β → Bool) :
    ∀ l : List α, (l.filterMap f).countP p
      = l.countP (fun a => match f a with | some b => p b | none => false) := by
  intro l
  induction l with
  | nil => rfl
  | cons x xs ih =>
    cases hfx : f x with
    | none => simp [List.filterMap_cons, hfx, List.countP_cons, ih]
    | some b => simp [List.filterMap_cons, hfx, List.countP_cons, ih]

/-- `seriesMean` is undefined exactly when no value of the series is
present. -/
theorem seriesMean_eq_none_iff (xs : List (Option ℚ)) :
    seriesMean xs = none ↔ ∀ x ∈ xs, x = none := by
  simp only [seriesMean]
  split
  case isTrue h =>
    rw [List.length_eq_zero, List.filterMap_eq_nil_iff] at h
    constructor
    · intro _ x hx
      simpa using h x hx
    · intro _
      rfl
  case isFalse h =>
    constructor
    · intro hc
      exact absurd hc (by simp)
    · intro hall
      exfalso
      apply h
      rw [List.length_eq_zero, List.filterMap_eq_nil_iff]
      intro a ha
      simpa using hall a ha

/-! ### Claim theorems -/

/-- C10: a row with a missing (`NaN`) severity field is rendered as the
literal string "nan" by `astype(str)` before lowercasing, so the row is
classified neither high-severity nor an unverified-critical gap. -/
theorem nan_severity_rule (cols : List String) (row : List (Option String))
    (h : cellAt cols row "Alert Type/Severity" = none) :
    (mkEvent cols row).severity_clean = "nan"
    ∧ (mkEvent cols row).is_high = false
    ∧ (mkEvent cols row).is_critical_gap = false := by
  have hsev : (mkEvent cols row).severity_clean
      = strToLower (astype_str (cellAt cols row "Alert Type/Severity")) := rfl
  have hhi : (mkEvent cols row).is_high
      = strContains (strToLower (astype_str (cellAt cols row "Alert Type/Severity"))) "high" := rfl
  have hgap : (mkEvent cols row).is_critical_gap
      = (strContains (strToLower (astype_str (cellAt cols row "Alert Type/Severity"))) "high"
          && (toDatetimeCell (cellAt cols row "Verification Date/Time")).isNone) := rfl
  have hf : strContains (strToLower (astype_str (none : Option String))) "high" = false := by
    decide
  refine ⟨?_, ?_, ?_⟩
  · rw [hsev, h]; decide
  · rw [hhi, h]; exact hf
  · rw [hgap, h, hf, Bool.false_and]

/-- C10 witness at a concrete row with a missing severity cell. -/
theorem nan_severity_rule_witness :
    (mkEvent requiredCols noSevRow).severity_clean = "nan"
    ∧ (mkEvent requiredCols noSevRow).is_high = false
    ∧ (mkEvent requiredCols noSevRow).is_critical_gap = false :=
  nan_severity_rule requiredCols noSevRow (by decide)

/-- C3: `response_minutes` is the signed difference verification − alert in
minutes when both timestamps parse (unclamped), absent when either is missing,
and `is_sop_violation` holds exactly when a present response strictly exceeds
30 minutes. -/
theorem response_sop_rule (cols : List String) (row : List (Option String)) :
    (∀ a v : ℚ, (mkEvent cols row).alert_time = some a →
        (mkEvent cols row).verification_time = some v →
        (mkEvent cols row).response_minutes = some ((v - a) / 60))
    ∧ ((mkEvent cols row).alert_time = none ∨ (mkEvent cols row).verification_time = none →
        (mkEvent cols row).response_minutes = none)
    ∧ ((mkEvent cols row).is_sop_violation = true ↔
        ∃ m : ℚ, (mkEvent cols row).response_minutes = some m ∧ 30 < m) := by
  have ha : (mkEvent cols row).alert_time = toDatetimeCell (cellAt cols row "Alert Time") := rfl
  have hv : (mkEvent cols row).verification_time
      = toDatetimeCell (cellAt cols row "Verification Date/Time") := rfl
  have hr : (mkEvent cols row).response_minutes
      = (match toDatetimeCell (cellAt cols row "Verification Date/Time"),
              toDatetimeCell (cellAt cols row "Alert Time") with
         | some v, some a => some ((v - a) / 60)
         | _, _ => none) := rfl
  have hs : (mkEvent cols row).is_sop_violation
      = (match (mkEvent cols row).response_minutes with
         | some m => decide (30 < m)
         | none => false) := rfl
  refine ⟨?_, ?_, ?_⟩
  · intro a v h1 h2
    rw [ha] at h1
    rw [hv] at h2
    rw [hr, h1, h2]
  · intro hd
    rw [hr]
    rcases hd with h1 | h2
    · rw [ha] at h1
      rw [h1]
      cases toDatetimeCell (cellAt cols row "Verification Date/Time") <;> rfl
    · rw [hv] at h2
      rw [h2]
  · rw [hs]
    cases hR : (mkEvent cols row).response_minutes with
    | none => simp
    | some m => simp

set_option maxRecDepth 2000 in
/-- C3 witness at a concrete row: a 45-minute verification delay. -/
theorem response_sop_rule_witness :
    (mkEvent requiredCols respRow).response_minutes
      = some (((38700 : ℚ) - 36000) / 60) :=
  (response_sop_rule requiredCols respRow).1 36000 38700
    (by with_unfolding_all rfl) (by with_unfolding_all rfl)

/-- C4: the duration parser maps a 3-token `HH:MM:SS` string with integer
tokens to `h*60 + m + s/60` minutes and anything else to 0; in particular
"01:02:30" gives 62.5 and "garbage" gives 0. -/
theorem parse_duration_rule :
    (∀ (s hs ms ss : String) (h m sec : ℤ),
        strSplitP s (fun c => c = ':') = [hs, ms, ss] →
        pyInt hs = some h → pyInt ms = some m → pyInt ss = some sec →
        parse_duration s = (h : ℚ) * 60 + (m : ℚ) + (sec : ℚ) / 60)
    ∧ (∀ s : String,
        (¬ ∃ hs ms ss, strSplitP s (fun c => c = ':') = [hs, ms, ss] ∧
            (pyInt hs).isSome = true ∧ (pyInt ms).isSome = true ∧ (pyInt ss).isSome = true) →
        parse_duration s = 0)
    ∧ parse_duration "01:02:30" = 125 / 2
    ∧ parse_duration "garbage" = 0 := by
  refine ⟨?_, ?_, by with_unfolding_all rfl, by with_unfolding_all rfl⟩
  · intro s hs ms ss h m sec hsplit hh hm hsec
    unfold parse_duration
    rw [hsplit]
    simp only [hh, hm, hsec]
  · intro s hne
    unfold parse_duration
    rcases hsplit : strSplitP s (fun c => c = ':') with _ | ⟨a, _ | ⟨b, _ | ⟨c, _ | ⟨d, t⟩⟩⟩⟩
    · rfl
    · rfl
    · rfl
    · cases hha : pyInt a with
      | none => simp only [hha]
      | some x =>
        cases hhb : pyInt b with
        | none => simp only [hha, hhb]
        | some y =>
          cases hhc : pyInt c with
          | none => simp only [hha, hhb, hhc]
          | some z =>
            exact absurd ⟨a, b, c, hsplit, by rw [hha]; rfl, by rw [hhb]; rfl,
              by rw [hhc]; rfl⟩ hne
    · rfl

/-- C4 witness: "01:02:30" through the general token rule. -/
theorem parse_duration_rule_witness :
    parse_duration "01:02:30" = ((1 : ℤ) : ℚ) * 60 + ((2 : ℤ) : ℚ) + ((30 : ℤ) : ℚ) / 60 :=
  parse_duration_rule.1 "01:02:30" "01" "02" "30" 1 2 30
    (by decide) (by decide) (by decide) (by decide)

/-- C5: a document whose canonicalized columns miss any of the required
columns is rejected with the `none` value (zero events), not an exception. -/
theorem schema_gate_rejects (fn : String) (c : FileContent) (t : RawTable)
    (hread : readDocument fn c = Except.ok t)
    (hmiss : ∃ rc ∈ requiredCols, rc ∉ t.cols.map canonName) :
    process_alarm_df fn c = none := by
  unfold process_alarm_df
  rw [hread]
  show processTable t = none
  simp only [processTable]
  obtain ⟨rc, hrc, hnot⟩ := hmiss
  rw [if_neg]
  intro hall
  rw [List.all_eq_true] at hall
  exact hnot (by simpa using hall rc hrc)

/-- C5 witness: a document lacking the verification-time column is
rejected. -/
theorem schema_gate_rejects_witness :
    process_alarm_df "daily.csv" (FileContent.csvRows noVerifRows) = none :=
  schema_gate_rejects "daily.csv" (FileContent.csvRows noVerifRows)
    { cols := ["Alert Time", "Alert Type/Severity"]
      rows := [[some "05-02-2026 10:00", some "High"]] }
    rfl ⟨"Verification Date/Time", by decide, by decide⟩

/-- C6: the per-document ingest is total: a reader fault yields `none`, a
successful read yields the processed table, and the outcome is always either
a full event table or the single rejection value. -/
theorem ingest_total_outcome (fn : String) (c : FileContent) :
    (∀ msg, readDocument fn c = Except.error msg → process_alarm_df fn c = none)
    ∧ (∀ t, readDocument fn c = Except.ok t → process_alarm_df fn c = processTable t)
    ∧ (process_alarm_df fn c = none ∨ ∃ es, process_alarm_df fn c = some es) := by
  refine ⟨?_, ?_, ?_⟩
  · intro msg h
    unfold process_alarm_df
    rw [h]
  · intro t h
    unfold process_alarm_df
    rw [h]
  · cases h : process_alarm_df fn c with
    | none => exact Or.inl rfl
    | some es => exact Or.inr ⟨es, rfl⟩

/-- C6 witness: corrupt bytes under a spreadsheet filename are rejected with
`none`. -/
theorem ingest_total_outcome_witness :
    process_alarm_df "log.xlsx" (FileContent.corrupt "bad zip") = none :=
  (ingest_total_outcome "log.xlsx" (FileContent.corrupt "bad zip")).1
    "not a spreadsheet container" rfl

/-- C1 counterexample: a returned row can carry a null parsed alert time — a
present but unparseable alert-time value survives the `notna` filter (which
runs before parsing) and is coerced to NaT. -/
theorem alert_time_null_counterexample :
    (process_alarm_df "upload.csv" (FileContent.csvRows nullAlertRows)).isSome = true
    ∧ ((process_alarm_df "upload.csv" (FileContent.csvRows nullAlertRows)).getD []).any
        (fun e => e.alert_time.isNone) = true := by
  decide

/-- C1 amended: rows whose raw alert-time cell is absent are dropped before
parsing, so every returned event comes from a row whose raw alert-time value
was present; a present value that fails to parse is kept with a null
`alert_time`. -/
theorem alert_time_drop_before_parse (t : RawTable) (es : List Event)
    (hp : processTable t = some es) :
    ∀ e ∈ es, ∃ r ∈ t.rows,
      (cellAt (t.cols.map canonName) r "Alert Time").isSome = true
      ∧ e = mkEvent (t.cols.map canonName) r := by
  intro e he
  simp only [processTable] at hp
  split at hp
  · rw [Option.some_inj] at hp
    rw [← hp] at he
    obtain ⟨r, hrmem, hre⟩ := List.mem_map.mp he
    obtain ⟨hrows, hpred⟩ := List.mem_filter.mp hrmem
    exact ⟨r, hrows, hpred, hre.symm⟩
  · exact absurd hp (by simp)

/-- C1 witness for the amended claim, at a concrete one-row table. -/
theorem alert_time_drop_before_parse_witness :
    ∃ r ∈ wTable.rows,
      (cellAt (wTable.cols.map canonName) r "Alert Time").isSome = true
      ∧ wEvent = mkEvent (wTable.cols.map canonName) r :=
  alert_time_drop_before_parse wTable [wEvent] rfl wEvent (List.mem_singleton.mpr rfl)

/-- C2 counterexample: the header predicate first matches at row 0, yet the
code reads the header at the fixed offset 3 — the adaptive scan described by
the claim does not happen. -/
theorem header_locator_counterexample :
    specHeaderScan scanRows = some 0
    ∧ headerIndexUsed "upload.csv" (FileContent.csvRows scanRows) = some 3
    ∧ ¬ headerIndexUsed "upload.csv" (FileContent.csvRows scanRows) = specHeaderScan scanRows := by
  decide

/-- C2 amended: both document kinds are read with the constant header offset
3 (the fixed-offset mode); for spreadsheets the scanned page is the first
sheet whose name contains "ALARM" case-insensitively, else the first sheet. -/
theorem header_fixed_offset :
    (∀ (fn : String) (c : FileContent) (t : RawTable),
        readDocument fn c = Except.ok t → headerIndexUsed fn c = some 3)
    ∧ (∀ (sheets : List (String × List (List (Option String)))) s,
        sheets.find? (fun p => strContains (strToUpper p.1) "ALARM") = some s →
        targetSheet sheets = some s)
    ∧ (∀ s0 rest,
        List.find? (fun p => strContains (strToUpper p.1) "ALARM") (s0 :: rest) = none →
        targetSheet (s0 :: rest) = some s0) := by
  refine ⟨?_, ?_, ?_⟩
  · intro fn c t h
    unfold headerIndexUsed
    rw [h]
    rfl
  · intro sheets s hf
    cases sheets with
    | nil => simp [List.find?] at hf
    | cons s0 rest =>
      unfold targetSheet
      rw [hf]
      rfl
  · intro s0 rest hf
    unfold targetSheet
    rw [hf]
    rfl

/-- C2 witness for the amended claim. -/
theorem header_fixed_offset_witness :
    headerIndexUsed "w.csv" (FileContent.csvRows scanRows) = some 3 :=
  header_fixed_offset.1 "w.csv" (FileContent.csvRows scanRows)
    { cols := ["meta 3"], rows := [[some "data"]] } rfl

/-- C9 counterexample: with no defined response time the mean is undefined,
yet the upload-preview KPI surfaces the value 0 — a silent zero, not an
explicit no-data value (likewise for the empty corpus). -/
theorem avg_response_zero_counterexample :
    seriesMean (([noRespEvent]).map (fun e => e.response_minutes)) = none
    ∧ avg_response [noRespEvent] = 0
    ∧ avg_response ([] : List Event) = 0 := by
  decide

/-- C9 amended: the daily rollup's per-date mean response is undefined (`none`)
exactly when no event of that date has a defined response time, and no fault
is raised; but the preview KPI coerces an undefined corpus mean to 0. -/
theorem mean_degeneracy_rule :
    (∀ es : List Event,
        seriesMean (es.map (fun e => e.response_minutes)) = none → avg_response es = 0)
    ∧ (∀ (tes : List TaggedEvent) (row : DailyRow), row ∈ daily_stats tes →
        (row.avg_resp = none ↔
          ∀ te ∈ tes, te.log_date = row.log_date → te.ev.response_minutes = none)) := by
  constructor
  · intro es h
    unfold avg_response
    rw [h]
  · intro tes row hrow
    unfold daily_stats at hrow
    obtain ⟨d, _, hd⟩ := List.mem_map.mp hrow
    have hdate : row.log_date = d := by rw [← hd]
    have havg : row.avg_resp
        = seriesMean ((tes.filter (fun te => decide (te.log_date = d))).map
            (fun te => te.ev.response_minutes)) := by rw [← hd]
    rw [havg, hdate, seriesMean_eq_none_iff]
    constructor
    · intro hall te hte hdte
      exact hall te.ev.response_minutes
        (List.mem_map.mpr ⟨te, List.mem_filter.mpr ⟨hte, by simpa using hdte⟩, rfl⟩)
    · intro hall x hx
      obtain ⟨te, htef, hxe⟩ := List.mem_map.mp hx
      obtain ⟨hte, hdte⟩ := List.mem_filter.mp htef
      rw [← hxe]
      exact hall te hte (by simpa using hdte)

/-- C9 witness for the amended claim. -/
theorem mean_degeneracy_rule_witness :
    avg_response [noRespEvent] = 0 :=
  mean_degeneracy_rule.1 [noRespEvent] (by decide)

/-- C7: for any event table with at least one high-severity event the hourly
rollup has exactly 24 rows, hour `h` in position `h`, each carrying the count
of high-severity events whose alert time falls in that hour (0 for hours with
no occurrences). -/
theorem hourly_rule (es : List Event) (hhigh : es.any (fun e => e.is_high) = true) :
    (hourly es).length = 24
    ∧ ∀ hr : ℕ, hr < 24 →
        (hourly es).get? hr
          = some ((hr : ℤ), (es.filter (fun e => e.is_high)).countP
              (fun e => decide (e.alert_time.map hourOf = some (hr : ℤ)))) := by
  constructor
  · unfold hourly
    rw [List.length_map, List.length_range]
  · intro hr hhr
    unfold hourly
    rw [List.get?_map, List.get?_range hhr]
    simp only [Option.map_some']
    congr 1
    rw [Prod.mk.injEq]
    refine ⟨rfl, ?_⟩
    unfold highHours
    rw [countP_filterMap_match]
    apply List.countP_congr
    intro e he
    cases he2 : e.alert_time with
    | none => simp [he2]
    | some tq => simp [he2]

/-- C7 witness at a one-event table. -/
theorem hourly_rule_witness :
    (hourly [noRespEvent]).length = 24 :=
  (hourly_rule [noRespEvent] (by decide)).1

/-- Counting inside a label's group of the stretch `groupby` equals counting
over the bucket's events. -/
theorem countP_kmRows (df : List Event) (sel lab : String) (p : Event → Bool) :
    (((kmRows df sel).filter (fun pr => decide (pr.2 = lab))).map (fun pr => pr.1)).countP p
      = (bucketEvents df sel lab).countP p := by
  unfold kmRows bucketEvents
  generalize List.filter (fun e => decide (e.section_name = some sel)) df = es
  induction es with
  | nil => rfl
  | cons e es ih =>
    cases hn : toNumericCell e.lpg_no with
    | none =>
      simp only [List.filterMap_cons, hn, Option.map_none', List.filter_cons]
      simpa [hn] using ih
    | some q =>
      simp only [List.filterMap_cons, hn, Option.map_some', List.filter_cons]
      by_cases hq : stretchLabel (kmStart q) = lab
      · simp [hn, hq, List.countP_cons, ih]
      · simp [hn, hq, ih]

/-- Field characterization of one stretch-stat row. -/
theorem mkStretchStat_fields (df : List Event) (sel k : String) :
    (mkStretchStat df sel k).label = k
    ∧ (mkStretchStat df sel k).high_alarms
        = (bucketEvents df sel k).countP (fun e => e.is_high)
    ∧ (mkStretchStat df sel k).unverified
        = (bucketEvents df sel k).countP (fun e => e.is_critical_gap)
    ∧ (mkStretchStat df sel k).risk_score
        = (mkStretchStat df sel k).high_alarms + (mkStretchStat df sel k).unverified := by
  refine ⟨rfl, ?_, ?_, rfl⟩
  · exact countP_kmRows df sel k (fun e => e.is_high)
  · exact countP_kmRows df sel k (fun e => e.is_critical_gap)

/-- The grouped stretch statistics carry strictly ascending labels (groupby
keys are distinct and sorted). -/
theorem stretchStats_pairwise_label (df : List Event) (sel : String) :
    (stretchStats df sel).Pairwise (fun a b => strLtB a.label b.label = true) := by
  unfold stretchStats stretchKeys
  rw [List.pairwise_map]
  have h1 : (isortLe strLeB (((kmRows df sel).map (fun p => p.2)).dedup)).Pairwise
      (fun a b => strLeB a b = true) :=
    pairwise_isortLe strLeB strLeB_total strLeB_trans _
  have h2 : (isortLe strLeB (((kmRows df sel).map (fun p => p.2)).dedup)).Nodup :=
    (perm_isortLe strLeB _).symm.nodup (List.nodup_dedup _)
  exact (List.Pairwise.and h1 h2).imp (fun hab => strLtB_of_leB_of_ne _ _ hab.1 hab.2)

/-- Every stretch key is a rendered kilometer label. -/
theorem stretchKeys_label (df : List Event) (sel : String) (k : String)
    (hk : k ∈ stretchKeys df sel) : ∃ z : ℤ, k = stretchLabel z := by
  unfold stretchKeys at hk
  rw [mem_isortLe, List.mem_dedup] at hk
  obtain ⟨pr, hpr, hprk⟩ := List.mem_map.mp hk
  unfold kmRows at hpr
  obtain ⟨e, _, hfe⟩ := List.mem_filterMap.mp hpr
  obtain ⟨q, _, hpq⟩ := Option.map_eq_some'.mp hfe
  refine ⟨kmStart q, ?_⟩
  rw [← hprk, ← hpq]

end PIDWS
